import Mathlib

/-!
Shallow embedding of the core of `src/stock.py` (sistema-stock): the site
resolver (`get_or_create_obra_id`), the item registry (`add_item`,
`update_item_state`, `add_obra`), the movement ledger (`register_movement`)
and the read projections (`load_stock_data`, `load_movimientos_data`).

The relational store is modelled as an explicit `DB` value holding the three
tables (`obras`, `herramientas`, `movimientos`) together with the id
sequences.  The polymorphic site columns (`herramientas.obra_actual`,
`movimientos.obra_origen`, `movimientos.obra_destino`) are text columns and
are modelled as `Option String`; a numeric identifier is stored as its
decimal rendering (`Nat.repr`), exactly as psycopg2 serialises a Python
`int` into a text column.
-/

/-- A row of the `obras` table: `obras(id PK, nombre, estado)`. -/
structure Obra where
  id : Nat
  nombre : String
  estado : String
  deriving Repr, DecidableEq

/-- A row of the `herramientas` table:
`herramientas(id PK, marca, nombre, tipo, estado, obra_actual, observaciones)`.
`obra_actual` is the polymorphic site column (id-as-text or literal name). -/
structure Herramienta where
  id : Nat
  marca : String
  nombre : String
  tipo : String
  estado : String
  obra_actual : Option String
  observaciones : Option String
  deriving Repr, DecidableEq

/-- A row of the `movimientos` table:
`movimientos(id PK, item_id, obra_origen, obra_destino, responsable, motivo,
observaciones)`.  The two site columns are polymorphic text columns. -/
structure Movimiento where
  id : Nat
  item_id : Nat
  obra_origen : Option String
  obra_destino : Option String
  responsable : String
  motivo : String
  observaciones : Option String
  deriving Repr, DecidableEq

/-- The relational store: the three tables plus the id sequences backing
`RETURNING id` / generated primary keys. -/
structure DB where
  obras : List Obra
  herramientas : List Herramienta
  movimientos : List Movimiento
  next_obra_id : Nat
  next_herr_id : Nat
  next_mov_id : Nat
  deriving Repr, DecidableEq

/-- Python `str.strip()`: drop leading and trailing whitespace. -/
def strip (s : String) : String :=
  ⟨((s.data.dropWhile Char.isWhitespace).reverse.dropWhile Char.isWhitespace).reverse⟩

/-- Python truthiness of an optional string argument (`if nombre:`):
`None` and `""` are falsy, every other string is truthy. -/
def truthy : Option String → Bool
  | none => false
  | some s => !(s == "")

/-- `get_or_create_obra_id(nombre)` (stock.py lines 124-142).
Returns `None` when `not nombre or not nombre.strip()`; otherwise selects an
`obras` row by exact trimmed-name match and returns its id, or inserts a new
row `(nombre.strip(), 'Activa')` and returns the generated id.  The insert is
committed by the function itself. -/
def get_or_create_obra_id (db : DB) (nombre : String) : Option Nat × DB :=
  if strip nombre = "" then (none, db)
  else
    match db.obras.find? (fun o => o.nombre == strip nombre) with
    | some o => (some o.id, db)
    | none =>
        (some db.next_obra_id,
         { db with
             obras := db.obras ++
               [{ id := db.next_obra_id, nombre := strip nombre, estado := "Activa" }],
             next_obra_id := db.next_obra_id + 1 })

/-- The guarded resolver call in `register_movement`:
`get_or_create_obra_id(nombre) if nombre else None` (stock.py lines 268-269). -/
def resolve_site_ref (db : DB) (r : Option String) : Option Nat × DB :=
  if truthy r then get_or_create_obra_id db (r.getD "") else (none, db)

/-- `register_movement(item_id, obra_origen_nombre, obra_destino_nombre,
responsable, motivo, observaciones)` (stock.py lines 260-291), success path:
resolve the two site references, insert the movement row, update the item row
to `obra_actual = obra_destino_id, estado = 'En uso'`, commit.  The function
performs no validation of its own on `responsable` or on the resolved
destination. -/
def register_movement (db : DB) (item_id : Nat)
    (obra_origen_nombre obra_destino_nombre : Option String)
    (responsable motivo : String) (observaciones : Option String) : Bool × DB :=
  let r1 := resolve_site_ref db obra_origen_nombre
  let r2 := resolve_site_ref r1.2 obra_destino_nombre
  let mov : Movimiento :=
    { id := r2.2.next_mov_id
      item_id := item_id
      obra_origen := r1.1.map Nat.repr
      obra_destino := r2.1.map Nat.repr
      responsable := responsable
      motivo := motivo
      observaciones := observaciones }
  let db3 := { r2.2 with
                 movimientos := r2.2.movimientos ++ [mov]
                 next_mov_id := r2.2.next_mov_id + 1 }
  let db4 := { db3 with
                 herramientas := db3.herramientas.map fun h =>
                   if h.id == item_id then
                     { h with obra_actual := r2.1.map Nat.repr, estado := "En uso" }
                   else h }
  (true, db4)

/-- The point at which an execution of `register_movement` raises. -/
inductive FailPoint
  | origen
  | destino
  | insert_mov
  | update_item
  | commit
  deriving Repr, DecidableEq

/-- An execution of `register_movement` with an explicit failure point
(`none` = the success path).  Commit/rollback structure of the source:
`get_or_create_obra_id` commits its own site insert as soon as it succeeds,
so a later failure leaves any already-committed site rows in place; the
movement insert and the item update stay uncommitted until the final
`conn.commit()`, and the `except` branch rolls them back
(stock.py lines 286-289), so a failure at or after the movement insert
restores the tables to the state left by the site resolutions. -/
def register_movement_run (db : DB) (item_id : Nat)
    (obra_origen_nombre obra_destino_nombre : Option String)
    (responsable motivo : String) (observaciones : Option String) :
    Option FailPoint → Bool × DB
  | none =>
      register_movement db item_id obra_origen_nombre obra_destino_nombre
        responsable motivo observaciones
  | some .origen => (false, db)
  | some .destino => (false, (resolve_site_ref db obra_origen_nombre).2)
  | some .insert_mov =>
      (false,
       (resolve_site_ref (resolve_site_ref db obra_origen_nombre).2
         obra_destino_nombre).2)
  | some .update_item =>
      (false,
       (resolve_site_ref (resolve_site_ref db obra_origen_nombre).2
         obra_destino_nombre).2)
  | some .commit =>
      (false,
       (resolve_site_ref (resolve_site_ref db obra_origen_nombre).2
         obra_destino_nombre).2)

/-- `add_item(nombre, tipo, estado, obra_actual, observaciones, marca)`
(stock.py lines 198-222), success path: resolve the optional site, default
the brand to the sentinel `'N/D'` when blank after stripping, insert the
item row.  The function performs no validation of `nombre` itself. -/
def add_item (db : DB) (nombre tipo estado : String)
    (obra_actual : Option String) (observaciones : Option String)
    (marca : Option String) : Bool × DB :=
  let r :=
    if truthy obra_actual && !(strip (obra_actual.getD "") == "") then
      get_or_create_obra_id db (strip (obra_actual.getD ""))
    else (none, db)
  let marca_val :=
    if strip (marca.getD "") = "" then "N/D" else strip (marca.getD "")
  let h : Herramienta :=
    { id := r.2.next_herr_id
      marca := marca_val
      nombre := nombre
      tipo := tipo
      estado := estado
      obra_actual := r.1.map Nat.repr
      observaciones := observaciones }
  (true,
   { r.2 with
       herramientas := r.2.herramientas ++ [h]
       next_herr_id := r.2.next_herr_id + 1 })

/-- `add_obra(nombre, estado)` (stock.py lines 224-245): select an `obras`
row by the trimmed name; if one exists return `False` without writing,
otherwise insert `(nombre.strip(), estado)` and return `True`. -/
def add_obra (db : DB) (nombre : String) (estado : String) : Bool × DB :=
  match db.obras.find? (fun o => o.nombre == strip nombre) with
  | some _ => (false, db)
  | none =>
      (true,
       { db with
           obras := db.obras ++
             [{ id := db.next_obra_id, nombre := strip nombre, estado := estado }],
           next_obra_id := db.next_obra_id + 1 })

/-- `update_item_state(item_id, new_state)` (stock.py lines 247-258):
when the new state is `'Disponible'` run
`UPDATE herramientas SET estado=%s, obra_actual=NULL WHERE id=%s`,
otherwise `UPDATE herramientas SET estado=%s WHERE id=%s`. -/
def update_item_state (db : DB) (item_id : Nat) (new_state : String) : DB :=
  if new_state = "Disponible" then
    { db with
        herramientas := db.herramientas.map fun h =>
          if h.id == item_id then
            { h with estado := new_state, obra_actual := none }
          else h }
  else
    { db with
        herramientas := db.herramientas.map fun h =>
          if h.id == item_id then { h with estado := new_state } else h }

/-- The SQL regex test `col ~ '^[0-9]+$'`: non-empty and all ASCII digits. -/
def esNumerico (s : String) : Bool :=
  !(s == "") && s.data.all (·.isDigit)

/-- The SQL cast `(col)::int` on a string that matched `^[0-9]+$`:
decimal value of the digit string. -/
def sqlToInt (s : String) : Nat :=
  s.data.foldl (fun n c => n * 10 + (c.toNat - '0'.toNat)) 0

/-- The polymorphic site-column resolution used by both read projections
(stock.py lines 148-157 and 175-192):
`COALESCE(o_id.nombre, o_nm.nombre)` where `o_id` joins on
`o_id.id = CASE WHEN col ~ '^[0-9]+$' THEN (col)::int ELSE NULL END`
and `o_nm` joins on `o_nm.nombre = col`. -/
def resolve_obra_nombre (obras : List Obra) : Option String → Option String
  | none => none
  | some s =>
      let byId : Option String :=
        if esNumerico s then (obras.find? (fun o => o.id == sqlToInt s)).map Obra.nombre
        else none
      match byId with
      | some x => some x
      | none => (obras.find? (fun o => o.nombre == s)).map Obra.nombre

/-- One row of the `load_stock_data` projection: the item columns (`h.*`)
plus the resolved `obra_actual_nombre`. -/
structure StockRow where
  item : Herramienta
  obra_actual_nombre : Option String
  deriving Repr, DecidableEq

/-- `load_stock_data()` (stock.py lines 144-161): every `herramientas` row,
`ORDER BY h.id DESC`, each joined with its resolved current-site name. -/
def load_stock_data (db : DB) : List StockRow :=
  (db.herramientas.insertionSort fun a b => b.id ≤ a.id).map fun h =>
    { item := h, obra_actual_nombre := resolve_obra_nombre db.obras h.obra_actual }

/-- Decimal digit string of a natural number, most significant digit first;
used to reason about `Nat.repr`, the decimal rendering stored into the
polymorphic site columns. -/
def natDigits (n : Nat) : List Char :=
  if _h : n < 10 then [Nat.digitChar n]
  else natDigits (n / 10) ++ [Nat.digitChar (n % 10)]
decreasing_by exact Nat.div_lt_self (by omega) (by omega)

/-- Schema invariants of the `obras` table carried by the store: generated
ids stay below the sequence value and the primary key is unique. -/
@[reducible] def ObrasWF (db : DB) : Prop :=
  (∀ o ∈ db.obras, o.id < db.next_obra_id) ∧
  db.obras.Pairwise (fun a b => a.id ≠ b.id)

/-- A small concrete store used by witnesses and counterexamples: one site,
one available tool, no movements. -/
def dbEj : DB :=
  { obras := [{ id := 10, nombre := "Obra Central", estado := "Activa" }]
    herramientas := [{ id := 1, marca := "Bosch", nombre := "Taladro", tipo := "Electrica",
                       estado := "Disponible", obra_actual := none, observaciones := none }]
    movimientos := []
    next_obra_id := 11
    next_herr_id := 2
    next_mov_id := 1 }

/-- One row of the `load_movimientos_data` projection: the movement columns
plus the joined item name/brand and the two resolved site names. -/
structure MovRow where
  mov : Movimiento
  item_nombre : Option String
  item_marca : Option String
  obra_origen_nombre : Option String
  obra_destino_nombre : Option String
  deriving Repr, DecidableEq

/-- `load_movimientos_data()` (stock.py lines 172-196): every `movimientos`
row joined (LEFT JOIN) with its item and with the resolved origin and
destination site names.  The `ORDER BY m.fecha_movimiento DESC` clause is
presentational (timestamps are not part of the model). -/
def load_movimientos_data (db : DB) : List MovRow :=
  db.movimientos.map fun m =>
    { mov := m
      item_nombre := (db.herramientas.find? (fun h => h.id == m.item_id)).map Herramienta.nombre
      item_marca := (db.herramientas.find? (fun h => h.id == m.item_id)).map Herramienta.marca
      obra_origen_nombre := resolve_obra_nombre db.obras m.obra_origen
      obra_destino_nombre := resolve_obra_nombre db.obras m.obra_destino }

/-! Supporting lemmas: decimal rendering round-trips through the SQL
digit-pattern test and integer cast, and the store operations preserve the
tables they do not touch. -/

theorem digitChar_isDigit {n : Nat} (h : n < 10) : (Nat.digitChar n).isDigit = true := by
  interval_cases n <;> decide

theorem digitChar_decode {n : Nat} (h : n < 10) :
    (Nat.digitChar n).toNat - 48 = n := by
  interval_cases n <;> decide

theorem toDigitsCore_eq (fuel : Nat) :
    ∀ (n : Nat) (ds : List Char), n < 10 ^ (fuel + 1) →
      Nat.toDigitsCore 10 (fuel + 1) n ds = natDigits n ++ ds := by
  induction fuel with
  | zero =>
      intro n ds h
      have h10 : n < 10 := by simpa using h
      have hdiv : n / 10 = 0 := Nat.div_eq_of_lt h10
      have hmod : n % 10 = n := Nat.mod_eq_of_lt h10
      simp [Nat.toDigitsCore, hdiv, hmod, natDigits, h10]
  | succ fuel ih =>
      intro n ds h
      by_cases hdiv : n / 10 = 0
      · have h10 : n < 10 := by omega
        have hmod : n % 10 = n := Nat.mod_eq_of_lt h10
        simp [Nat.toDigitsCore, hdiv, hmod, natDigits, h10]
      · have h10 : ¬ n < 10 := by omega
        have hlt : n / 10 < 10 ^ (fuel + 1) := by
          rw [Nat.div_lt_iff_lt_mul (by omega)]
          calc n < 10 ^ (fuel + 2) := h
            _ = 10 ^ (fuel + 1) * 10 := by ring
        rw [show Nat.toDigitsCore 10 (fuel + 1 + 1) n ds =
              Nat.toDigitsCore 10 (fuel + 1) (n / 10) (Nat.digitChar (n % 10) :: ds) by
            simp [Nat.toDigitsCore, hdiv]]
        rw [ih (n / 10) _ hlt]
        rw [show natDigits n = natDigits (n / 10) ++ [Nat.digitChar (n % 10)] by
            rw [natDigits]; simp [h10]]
        simp

theorem repr_data (n : Nat) : (Nat.repr n).data = natDigits n := by
  have h : n < 10 ^ (n + 1) :=
    lt_of_lt_of_le (Nat.lt_pow_self (by omega) n) (Nat.pow_le_pow_right (by omega) (Nat.le_succ n))
  show (List.asString (Nat.toDigits 10 n)).data = natDigits n
  rw [Nat.toDigits, toDigitsCore_eq n n [] h]
  simp [List.asString]

theorem natDigits_ne_nil (n : Nat) : natDigits n ≠ [] := by
  rw [natDigits]
  split <;> simp

theorem natDigits_all_digits (n : Nat) : ∀ c ∈ natDigits n, c.isDigit = true := by
  induction n using natDigits.induct with
  | case1 n h =>
      rw [natDigits]; simp only [h, dite_true, List.mem_singleton]
      rintro c rfl; exact digitChar_isDigit h
  | case2 n h ih =>
      rw [natDigits]; simp only [h, dite_false, List.mem_append, List.mem_singleton]
      rintro c (hc | rfl)
      · exact ih c hc
      · exact digitChar_isDigit (Nat.mod_lt _ (by omega))

theorem natDigits_decode (n : Nat) :
    ∀ acc : Nat,
      (natDigits n).foldl (fun a c => a * 10 + (c.toNat - '0'.toNat)) acc =
        acc * 10 ^ (natDigits n).length + n := by
  induction n using natDigits.induct with
  | case1 n h =>
      intro acc
      rw [natDigits]
      simp [h, digitChar_decode h]
  | case2 n h ih =>
      intro acc
      rw [natDigits]
      simp only [h, dite_false, List.foldl_append, List.length_append, List.foldl_cons,
        List.foldl_nil, List.length_cons, List.length_nil]
      rw [ih acc]
      simp only [show '0'.toNat = 48 from rfl]
      rw [digitChar_decode (Nat.mod_lt _ (by omega))]
      have hdm := Nat.div_add_mod n 10
      simp only [pow_succ, pow_zero, Nat.zero_add, Nat.one_mul]
      have hmul : acc * (10 ^ (natDigits (n / 10)).length * 10) =
          acc * 10 ^ (natDigits (n / 10)).length * 10 := by ring
      omega

theorem sqlToInt_repr (n : Nat) : sqlToInt (Nat.repr n) = n := by
  rw [sqlToInt, repr_data]
  simpa using natDigits_decode n 0

theorem esNumerico_repr (n : Nat) : esNumerico (Nat.repr n) = true := by
  have hne : Nat.repr n ≠ "" := by
    intro hc
    have hdata : (Nat.repr n).data = [] := by rw [hc]
    rw [repr_data] at hdata
    exact natDigits_ne_nil n hdata
  simp [esNumerico, hne, repr_data, List.all_eq_true]
  exact natDigits_all_digits n

theorem gco_herramientas (db : DB) (n : String) :
    ((get_or_create_obra_id db n).2).herramientas = db.herramientas := by
  rw [get_or_create_obra_id]
  split
  · rfl
  · split <;> rfl

theorem gco_movimientos (db : DB) (n : String) :
    ((get_or_create_obra_id db n).2).movimientos = db.movimientos := by
  rw [get_or_create_obra_id]
  split
  · rfl
  · split <;> rfl

theorem gco_next_mov_id (db : DB) (n : String) :
    ((get_or_create_obra_id db n).2).next_mov_id = db.next_mov_id := by
  rw [get_or_create_obra_id]
  split
  · rfl
  · split <;> rfl

theorem gco_obras_sub (db : DB) (n : String) :
    ∀ o ∈ db.obras, o ∈ ((get_or_create_obra_id db n).2).obras := by
  rw [get_or_create_obra_id]
  split
  · exact fun o ho => ho
  · split
    · exact fun o ho => ho
    · exact fun o ho => List.mem_append_left _ ho

theorem gco_wf (db : DB) (n : String) (h : ObrasWF db) :
    ObrasWF ((get_or_create_obra_id db n).2) := by
  obtain ⟨hbound, hpair⟩ := h
  rw [get_or_create_obra_id]
  split
  · exact ⟨hbound, hpair⟩
  · split
    · exact ⟨hbound, hpair⟩
    · constructor
      · intro o ho
        simp only [List.mem_append, List.mem_singleton] at ho
        rcases ho with ho | rfl
        · exact Nat.lt_succ_of_lt (hbound o ho)
        · exact Nat.lt_succ_self _
      · rw [List.pairwise_append]
        refine ⟨hpair, List.pairwise_singleton _ _, ?_⟩
        intro a ha b hb
        simp only [List.mem_singleton] at hb
        subst hb
        exact Nat.ne_of_lt (hbound a ha)

theorem gco_some_spec (db : DB) (n : String) (hn : strip n ≠ "") :
    ∃ o ∈ ((get_or_create_obra_id db n).2).obras,
      (get_or_create_obra_id db n).1 = some o.id ∧ o.nombre = strip n := by
  rw [get_or_create_obra_id]
  simp only [hn, if_false]
  split
  · next o hfind =>
      refine ⟨o, List.mem_of_find?_eq_some hfind, rfl, ?_⟩
      have := List.find?_some hfind
      simpa using this
  · exact ⟨_, List.mem_append_right _ (List.mem_singleton_self _), rfl, rfl⟩

theorem find?_id_of_pairwise :
    ∀ (l : List Obra), l.Pairwise (fun a b => a.id ≠ b.id) →
      ∀ o ∈ l, l.find? (fun x => x.id == o.id) = some o := by
  intro l
  induction l with
  | nil => intro _ o ho; simp at ho
  | cons a t ih =>
      intro hp o ho
      rw [List.pairwise_cons] at hp
      rcases List.mem_cons.mp ho with rfl | hot
      · rw [List.find?_cons_of_pos _ (by simp)]
      · rw [List.find?_cons_of_neg _ (by simp; exact hp.1 o hot)]
        exact ih hp.2 o hot

theorem find?_nombre_of_pairwise :
    ∀ (l : List Obra), l.Pairwise (fun a b => a.nombre ≠ b.nombre) →
      ∀ o ∈ l, ∀ s : String, o.nombre = s → l.find? (fun x => x.nombre == s) = some o := by
  intro l
  induction l with
  | nil => intro _ o ho; simp at ho
  | cons a t ih =>
      intro hp o ho s hos
      rw [List.pairwise_cons] at hp
      rcases List.mem_cons.mp ho with rfl | hot
      · rw [List.find?_cons_of_pos _ (by simp [hos])]
      · rw [List.find?_cons_of_neg _ (by simp; rw [← hos]; exact hp.1 o hot)]
        exact ih hp.2 o hot s hos

theorem rsr_herramientas (db : DB) (r : Option String) :
    ((resolve_site_ref db r).2).herramientas = db.herramientas := by
  rw [resolve_site_ref]
  split
  · exact gco_herramientas _ _
  · rfl

theorem rsr_movimientos (db : DB) (r : Option String) :
    ((resolve_site_ref db r).2).movimientos = db.movimientos := by
  rw [resolve_site_ref]
  split
  · exact gco_movimientos _ _
  · rfl

theorem rsr_next_mov_id (db : DB) (r : Option String) :
    ((resolve_site_ref db r).2).next_mov_id = db.next_mov_id := by
  rw [resolve_site_ref]
  split
  · exact gco_next_mov_id _ _
  · rfl

theorem rsr_wf (db : DB) (r : Option String) (h : ObrasWF db) :
    ObrasWF ((resolve_site_ref db r).2) := by
  rw [resolve_site_ref]
  split
  · exact gco_wf _ _ h
  · exact h

theorem register_movement_obras (db : DB) (item_id : Nat)
    (o d : Option String) (resp motivo : String) (obs : Option String) :
    (register_movement db item_id o d resp motivo obs).2.obras =
      ((resolve_site_ref (resolve_site_ref db o).2 d).2).obras := by
  simp [register_movement]

theorem add_obra_preserves_unique (db : DB) (nombre estado : String)
    (h : db.obras.Pairwise (fun a b => a.nombre ≠ b.nombre)) :
    ((add_obra db nombre estado).2).obras.Pairwise (fun a b => a.nombre ≠ b.nombre) := by
  rw [add_obra]
  cases hfind : db.obras.find? (fun o => o.nombre == strip nombre) with
  | some o => exact h
  | none =>
      simp only
      rw [List.pairwise_append]
      refine ⟨h, List.pairwise_singleton _ _, ?_⟩
      intro a ha b hb
      simp only [List.mem_singleton] at hb
      subst hb
      rw [List.find?_eq_none] at hfind
      have := hfind a ha
      simpa using this

/-! Claim theorems. -/

/-- Claim C1: if an execution of `register_movement` fails at any step, it
returns failure and both the `movimientos` table and the `herramientas`
table (in particular the targeted item row) are exactly as before the call:
the movement insert and the item update are rolled back atomically. -/
theorem register_movement_failure_atomic (db : DB) (item_id : Nat)
    (o d : Option String) (resp motivo : String) (obs : Option String) (f : FailPoint) :
    (register_movement_run db item_id o d resp motivo obs (some f)).1 = false ∧
    (register_movement_run db item_id o d resp motivo obs (some f)).2.movimientos =
      db.movimientos ∧
    (register_movement_run db item_id o d resp motivo obs (some f)).2.herramientas =
      db.herramientas := by
  cases f <;> simp [register_movement_run, rsr_movimientos, rsr_herramientas]

/-- Claim C2: every successful `register_movement` call appends exactly one
movement row carrying the resolved origin and destination identifiers, and
leaves every row of the targeted item with current site equal to the
resolved destination and status `'En uso'`, whatever its prior status. -/
theorem register_movement_success_postcondition (db : DB) (item_id : Nat)
    (o d : Option String) (resp motivo : String) (obs : Option String)
    (hitem : ∃ h0 ∈ db.herramientas, h0.id = item_id) :
    (register_movement db item_id o d resp motivo obs).1 = true ∧
    (register_movement db item_id o d resp motivo obs).2.movimientos =
      db.movimientos ++
        [{ id := db.next_mov_id
           item_id := item_id
           obra_origen := ((resolve_site_ref db o).1).map Nat.repr
           obra_destino := ((resolve_site_ref (resolve_site_ref db o).2 d).1).map Nat.repr
           responsable := resp
           motivo := motivo
           observaciones := obs }] ∧
    (∃ h' ∈ (register_movement db item_id o d resp motivo obs).2.herramientas,
       h'.id = item_id) ∧
    (∀ h' ∈ (register_movement db item_id o d resp motivo obs).2.herramientas,
       h'.id = item_id →
         h'.estado = "En uso" ∧
         h'.obra_actual = ((resolve_site_ref (resolve_site_ref db o).2 d).1).map Nat.repr) := by
  obtain ⟨h0, h0mem, h0id⟩ := hitem
  refine ⟨rfl, ?_, ?_, ?_⟩
  · simp [register_movement, rsr_movimientos, rsr_next_mov_id]
  · refine ⟨{ h0 with
        obra_actual := ((resolve_site_ref (resolve_site_ref db o).2 d).1).map Nat.repr,
        estado := "En uso" }, ?_, h0id⟩
    simp only [register_movement]
    rw [List.mem_map]
    refine ⟨h0, ?_, ?_⟩
    · rw [rsr_herramientas, rsr_herramientas]; exact h0mem
    · simp [h0id]
  · intro h' hmem hid
    simp only [register_movement] at hmem
    rw [List.mem_map] at hmem
    obtain ⟨h1, _, heq⟩ := hmem
    by_cases hc : h1.id = item_id
    · rw [← heq]
      simp [hc]
    · exfalso
      rw [← heq] at hid
      simp [hc] at hid

/-- Witness for C2 at a concrete store: the item-existence hypothesis holds
and the call succeeds. -/
theorem register_movement_success_postcondition_witness :
    (∃ h0 ∈ dbEj.herramientas, h0.id = 1) ∧
    (register_movement dbEj 1 none (some "Obra Central") "Ana" "Traslado" none).1 = true :=
  ⟨by decide,
   (register_movement_success_postcondition dbEj 1 none (some "Obra Central")
     "Ana" "Traslado" none (by decide)).1⟩

/-- Counterexample to C3 as stated: on a concrete store, `register_movement`
with an empty destination name (which resolves to null) does not abort —
it returns success, inserts a movement row, and modifies the item row. -/
theorem register_movement_null_destination_counterexample :
    (register_movement dbEj 1 none (some "") "Ana" "Traslado" none).1 = true ∧
    (register_movement dbEj 1 none (some "") "Ana" "Traslado" none).2.movimientos.length = 1 ∧
    (register_movement dbEj 1 none (some "") "Ana" "Traslado" none).2.herramientas ≠
      dbEj.herramientas := by
  decide

/-- Claim C3 amended: `register_movement` performs no destination validation;
when the destination reference resolves to null it proceeds, appending a
movement row with null destination and setting the item's current site to
null and its status to `'En uso'`.  (The destination-required check lives in
the movement form handler, which runs before this function is called.) -/
theorem register_movement_null_destination_proceeds (db : DB) (item_id : Nat)
    (o d : Option String) (resp motivo : String) (obs : Option String)
    (hd : (resolve_site_ref (resolve_site_ref db o).2 d).1 = none) :
    (register_movement db item_id o d resp motivo obs).1 = true ∧
    (register_movement db item_id o d resp motivo obs).2.movimientos =
      db.movimientos ++
        [{ id := db.next_mov_id
           item_id := item_id
           obra_origen := ((resolve_site_ref db o).1).map Nat.repr
           obra_destino := none
           responsable := resp
           motivo := motivo
           observaciones := obs }] ∧
    (∀ h' ∈ (register_movement db item_id o d resp motivo obs).2.herramientas,
       h'.id = item_id → h'.estado = "En uso" ∧ h'.obra_actual = none) := by
  refine ⟨rfl, ?_, ?_⟩
  · simp [register_movement, rsr_movimientos, rsr_next_mov_id, hd]
  · intro h' hmem hid
    simp only [register_movement] at hmem
    rw [List.mem_map] at hmem
    obtain ⟨h1, _, heq⟩ := hmem
    by_cases hc : h1.id = item_id
    · rw [← heq]
      simp [hc, hd]
    · exfalso
      rw [← heq] at hid
      simp [hc] at hid

/-- Witness for the amended C3 at a concrete store: a null-resolving
destination satisfies the hypothesis and the call still succeeds. -/
theorem register_movement_null_destination_proceeds_witness :
    (resolve_site_ref (resolve_site_ref dbEj none).2 none).1 = none ∧
    (register_movement dbEj 1 none none "Ana" "Traslado" none).1 = true :=
  ⟨by decide,
   (register_movement_null_destination_proceeds dbEj 1 none none "Ana" "Traslado" none
     (by decide)).1⟩

/-- Counterexample to C4 as stated: the resolver has no "no site" sentinel
handling.  Passing the sentinel display string `"Sin obra"` does not return
null — it creates and returns a site of that name. -/
theorem get_or_create_obra_id_sentinel_counterexample :
    (get_or_create_obra_id dbEj "Sin obra").1 ≠ none ∧
    (get_or_create_obra_id dbEj "Sin obra").2.obras ≠ dbEj.obras := by
  decide

/-- Claim C4 amended: `get_or_create_obra_id` returns null exactly when the
trimmed input is empty (there is no sentinel check); otherwise it returns
the identifier of the existing site whose name equals the trimmed input, or,
when no such site exists, appends a new site with status `'Activa'` and
returns its generated identifier. -/
theorem get_or_create_obra_id_resolution (db : DB) (nombre : String) :
    (strip nombre = "" → get_or_create_obra_id db nombre = (none, db)) ∧
    (strip nombre ≠ "" →
      (db.obras.Pairwise (fun a b => a.nombre ≠ b.nombre) →
        ∀ o ∈ db.obras, o.nombre = strip nombre →
          get_or_create_obra_id db nombre = (some o.id, db)) ∧
      ((∀ o ∈ db.obras, o.nombre ≠ strip nombre) →
        ∃ o : Obra,
          (get_or_create_obra_id db nombre).1 = some o.id ∧
          o.nombre = strip nombre ∧ o.estado = "Activa" ∧
          ((get_or_create_obra_id db nombre).2).obras = db.obras ++ [o])) := by
  constructor
  · intro h
    rw [get_or_create_obra_id]
    simp [h]
  · intro hn
    constructor
    · intro hpair o ho honame
      rw [get_or_create_obra_id]
      simp only [hn, if_false]
      rw [find?_nombre_of_pairwise db.obras hpair o ho _ honame]
    · intro hnone
      have hfind : db.obras.find? (fun x => x.nombre == strip nombre) = none := by
        rw [List.find?_eq_none]
        intro x hx
        simp
        exact hnone x hx
      rw [get_or_create_obra_id]
      simp only [hn, if_false, hfind]
      exact ⟨_, rfl, rfl, rfl, rfl⟩

/-- Witness for the amended C4 at concrete inputs: the empty-input branch
yields null without touching the store. -/
theorem get_or_create_obra_id_resolution_witness :
    strip "   " = "" ∧ get_or_create_obra_id dbEj "   " = (none, dbEj) :=
  ⟨by decide, (get_or_create_obra_id_resolution dbEj "   ").1 (by decide)⟩

/-- Claim C5: with a non-blank name and at most one existing site of that
trimmed name (the schema's uniqueness invariant), two consecutive
`get_or_create_obra_id` calls return the same identifier, the identifier is
non-null, and afterwards exactly one site row carries that name. -/
theorem get_or_create_obra_id_idempotent (db : DB) (nombre : String)
    (hn : strip nombre ≠ "")
    (hcount : db.obras.countP (fun o => o.nombre == strip nombre) ≤ 1) :
    (get_or_create_obra_id ((get_or_create_obra_id db nombre).2) nombre).1 =
      (get_or_create_obra_id db nombre).1 ∧
    ((get_or_create_obra_id db nombre).1).isSome = true ∧
    ((get_or_create_obra_id ((get_or_create_obra_id db nombre).2) nombre).2).obras.countP
      (fun o => o.nombre == strip nombre) = 1 := by
  cases hfind : db.obras.find? (fun x => x.nombre == strip nombre) with
  | some o =>
      have h1 : get_or_create_obra_id db nombre = (some o.id, db) := by
        rw [get_or_create_obra_id]
        simp only [hn, if_false, hfind]
      rw [h1]
      refine ⟨by rw [h1], rfl, ?_⟩
      rw [h1]
      have hpred := List.find?_some hfind
      have hpos : 0 < db.obras.countP (fun x => x.nombre == strip nombre) := by
        rw [List.countP_pos_iff]
        exact ⟨o, List.mem_of_find?_eq_some hfind, hpred⟩
      exact Nat.le_antisymm hcount hpos
  | none =>
      have hzero : db.obras.countP (fun x => x.nombre == strip nombre) = 0 := by
        rw [List.countP_eq_zero]
        rw [List.find?_eq_none] at hfind
        exact hfind
      have h1 : get_or_create_obra_id db nombre =
          (some db.next_obra_id,
           { db with
               obras := db.obras ++
                 [{ id := db.next_obra_id, nombre := strip nombre, estado := "Activa" }],
               next_obra_id := db.next_obra_id + 1 }) := by
        rw [get_or_create_obra_id]
        simp only [hn, if_false, hfind]
      rw [h1]
      have hfind2 : (db.obras ++
          [{ id := db.next_obra_id, nombre := strip nombre, estado := "Activa" : Obra }]).find?
            (fun x => x.nombre == strip nombre) =
          some { id := db.next_obra_id, nombre := strip nombre, estado := "Activa" } := by
        rw [List.find?_append, hfind]
        simp
      have h2 : get_or_create_obra_id
          { db with
              obras := db.obras ++
                [{ id := db.next_obra_id, nombre := strip nombre, estado := "Activa" }],
              next_obra_id := db.next_obra_id + 1 } nombre =
          (some db.next_obra_id,
           { db with
               obras := db.obras ++
                 [{ id := db.next_obra_id, nombre := strip nombre, estado := "Activa" }],
               next_obra_id := db.next_obra_id + 1 }) := by
        rw [get_or_create_obra_id]
        simp only [hn, if_false, hfind2]
      rw [h2]
      refine ⟨rfl, rfl, ?_⟩
      simp [List.countP_append, hzero]

/-- Witness for C5 at a concrete store and a fresh name: both hypotheses
hold and the two calls agree. -/
theorem get_or_create_obra_id_idempotent_witness :
    (strip "Obra Nueva" ≠ "" ∧
      dbEj.obras.countP (fun o => o.nombre == strip "Obra Nueva") ≤ 1) ∧
    (get_or_create_obra_id ((get_or_create_obra_id dbEj "Obra Nueva").2) "Obra Nueva").1 =
      (get_or_create_obra_id dbEj "Obra Nueva").1 :=
  ⟨⟨by decide, by decide⟩,
   (get_or_create_obra_id_idempotent dbEj "Obra Nueva" (by decide) (by decide)).1⟩

/-- Claim C6: round-trip through the polymorphic site column.  Under the
`obras` schema invariants, (a) after a successful `register_movement` to a
non-blank destination name, the `load_stock_data` projection displays that
trimmed name for the moved item (the stored column holds the identifier as
text); and (b) for legacy rows whose column holds a literal, non-numeric
name matched by an existing site, the projection displays that name — the
resolution treats an all-digits value as an identifier looked up by primary
key, otherwise as a name looked up by exact match, coalescing whichever
lookup succeeds. -/
theorem stock_projection_round_trip (db : DB) (hwf : ObrasWF db) (item_id : Nat)
    (origen : Option String) (d : String) (hd : strip d ≠ "")
    (resp motivo : String) (obs : Option String) :
    ((register_movement db item_id origen (some d) resp motivo obs).1 = true ∧
     ∀ row ∈ load_stock_data (register_movement db item_id origen (some d) resp motivo obs).2,
       row.item.id = item_id → row.obra_actual_nombre = some (strip d)) ∧
    (∀ row ∈ load_stock_data db, ∀ s : String,
       row.item.obra_actual = some s → esNumerico s = false →
       (∃ o ∈ db.obras, o.nombre = s) → row.obra_actual_nombre = some s) := by
  constructor
  · refine ⟨rfl, ?_⟩
    intro row hrow hid
    have hdne : d ≠ "" := fun hc => hd (by rw [hc]; rfl)
    have htr : truthy (some d) = true := by simp [truthy, hdne]
    have hres : resolve_site_ref ((resolve_site_ref db origen).2) (some d) =
        get_or_create_obra_id ((resolve_site_ref db origen).2) d := by
      rw [resolve_site_ref, htr]
      rfl
    obtain ⟨ostar, hmem, hfst, hnom⟩ :=
      gco_some_spec ((resolve_site_ref db origen).2) d hd
    have hwf2 : ObrasWF ((resolve_site_ref (resolve_site_ref db origen).2 (some d)).2) := by
      exact rsr_wf _ _ (rsr_wf _ _ hwf)
    rw [hres] at hwf2
    rw [load_stock_data] at hrow
    rw [List.mem_map] at hrow
    obtain ⟨h, hhmem, hroweq⟩ := hrow
    rw [List.mem_insertionSort] at hhmem
    simp only [register_movement, hres] at hhmem
    rw [List.mem_map] at hhmem
    obtain ⟨h1, _, hfeq⟩ := hhmem
    have hitem : row.item = h := by rw [← hroweq]
    have hobra_eq : row.obra_actual_nombre =
        resolve_obra_nombre
          ((register_movement db item_id origen (some d) resp motivo obs).2).obras
          h.obra_actual := by
      rw [← hroweq]
    by_cases hc : h1.id = item_id
    · have hupd : h.obra_actual = some (Nat.repr ostar.id) := by
        rw [← hfeq]
        simp [hc, hres, hfst]
      rw [hobra_eq, hupd, register_movement_obras, hres]
      rw [resolve_obra_nombre]
      simp only [esNumerico_repr, if_true, sqlToInt_repr]
      rw [find?_id_of_pairwise _ hwf2.2 ostar hmem]
      simp [hnom]
    · exfalso
      rw [hitem, ← hfeq] at hid
      simp [hc] at hid
  · intro row hrow s hs hnum hex
    rw [load_stock_data] at hrow
    rw [List.mem_map] at hrow
    obtain ⟨h, hhmem, hroweq⟩ := hrow
    have hitem : row.item = h := by rw [← hroweq]
    have hobra : h.obra_actual = some s := by rw [← hitem, hs]
    have hres : row.obra_actual_nombre = resolve_obra_nombre db.obras (some s) := by
      rw [← hroweq]
      simp [hobra]
    rw [hres, resolve_obra_nombre]
    simp only [hnum, Bool.false_eq_true, if_false]
    obtain ⟨o, homem, honame⟩ := hex
    cases hfind : db.obras.find? (fun x => x.nombre == s) with
    | none =>
        exfalso
        rw [List.find?_eq_none] at hfind
        exact hfind o homem (by simp [honame])
    | some o' =>
        have := List.find?_some hfind
        simp only [beq_iff_eq] at this
        simp [this]

/-- Witness for C6 at a concrete store: the schema invariant and the
non-blank destination hypothesis hold, and the movement succeeds. -/
theorem stock_projection_round_trip_witness :
    (ObrasWF dbEj ∧ strip "Obra Central" ≠ "") ∧
    (register_movement dbEj 1 none (some "Obra Central") "Ana" "Traslado" none).1 = true :=
  ⟨⟨by decide, by decide⟩,
   ((stock_projection_round_trip dbEj (by decide) 1 none "Obra Central" (by decide)
     "Ana" "Traslado" none).1).1⟩

/-- Claim C7: `update_item_state` with `'Disponible'` sets the status and
clears the current-site reference to null on the targeted rows; with any
other status it changes the status field only, and in both cases every
non-targeted row is left exactly as it was. -/
theorem update_item_state_frame (db : DB) (item_id : Nat) (new_state : String) :
    List.Forall₂
      (fun h h' : Herramienta =>
        (h.id = item_id →
          h' = { h with
                   estado := new_state,
                   obra_actual := if new_state = "Disponible" then none else h.obra_actual }) ∧
        (h.id ≠ item_id → h' = h))
      db.herramientas (update_item_state db item_id new_state).herramientas := by
  by_cases hs : new_state = "Disponible" <;>
    · simp only [update_item_state, hs, if_true, if_false, List.forall₂_map_right_iff]
      rw [List.forall₂_same]
      intro x _
      constructor
      · intro hx
        simp [hx, hs]
      · intro hx
        simp [hx]

/-- Witness for C7: the instantiated frame property at a concrete store,
item and status. -/
theorem update_item_state_frame_witness :
    List.Forall₂
      (fun h h' : Herramienta =>
        (h.id = 1 →
          h' = { h with
                   estado := "Disponible",
                   obra_actual := if "Disponible" = "Disponible" then none
                                  else h.obra_actual }) ∧
        (h.id ≠ 1 → h' = h))
      dbEj.herramientas (update_item_state dbEj 1 "Disponible").herramientas :=
  update_item_state_frame dbEj 1 "Disponible"

/-- Counterexample to C8 as stated: `add_item` does not validate the name.
On a concrete store, a blank name is inserted successfully (the blank-name
check lives in the form handler, not in `add_item`). -/
theorem add_item_blank_name_counterexample :
    (add_item dbEj "" "Electrica" "Disponible" none none (some "Bosch")).1 = true ∧
    (add_item dbEj "" "Electrica" "Disponible" none none (some "Bosch")).2.herramientas.length =
      dbEj.herramientas.length + 1 := by
  decide

/-- Claim C8 amended: `add_item` always succeeds and appends exactly one item
row whose brand is the stripped supplied brand, or the sentinel `"N/D"` when
the brand is absent or blank after stripping; the row keeps the supplied
name verbatim — in particular a blank name is inserted, since the blank-name
validation is performed by the form handler before `add_item` is called. -/
theorem add_item_inserts_with_sentinel_marca (db : DB) (nombre tipo estado : String)
    (obra_actual : Option String) (observaciones : Option String) (marca : Option String) :
    (add_item db nombre tipo estado obra_actual observaciones marca).1 = true ∧
    ∃ h : Herramienta,
      (add_item db nombre tipo estado obra_actual observaciones marca).2.herramientas =
        db.herramientas ++ [h] ∧
      h.nombre = nombre ∧
      h.marca = (if strip (marca.getD "") = "" then "N/D" else strip (marca.getD "")) ∧
      h.tipo = tipo ∧ h.estado = estado := by
  refine ⟨rfl, ?_⟩
  simp only [add_item]
  split
  · exact ⟨_, by rw [gco_herramientas], rfl, rfl, rfl, rfl⟩
  · exact ⟨_, rfl, rfl, rfl, rfl, rfl⟩

/-- Counterexample to C9 as stated: on a concrete store, `register_movement`
with an empty responsible string does not fail — it returns success and
inserts a movement row. -/
theorem register_movement_empty_responsable_counterexample :
    (register_movement dbEj 1 none (some "Obra Central") "" "Traslado" none).1 = true ∧
    (register_movement dbEj 1 none (some "Obra Central") "" "Traslado" none).2.movimientos.length
      = 1 := by
  decide

/-- Claim C9 amended: `register_movement` performs no validation of the
responsible field; with an empty responsible it succeeds, appending a
movement row whose responsible is the empty string and updating the item's
status to `'En uso'`.  (The empty-responsible check lives in the movement
form handler, which runs before this function is called.) -/
theorem register_movement_empty_responsable_proceeds (db : DB) (item_id : Nat)
    (o d : Option String) (motivo : String) (obs : Option String) :
    (register_movement db item_id o d "" motivo obs).1 = true ∧
    (register_movement db item_id o d "" motivo obs).2.movimientos =
      db.movimientos ++
        [{ id := db.next_mov_id
           item_id := item_id
           obra_origen := ((resolve_site_ref db o).1).map Nat.repr
           obra_destino := ((resolve_site_ref (resolve_site_ref db o).2 d).1).map Nat.repr
           responsable := ""
           motivo := motivo
           observaciones := obs }] ∧
    (∀ h' ∈ (register_movement db item_id o d "" motivo obs).2.herramientas,
       h'.id = item_id → h'.estado = "En uso") := by
  refine ⟨rfl, ?_, ?_⟩
  · simp [register_movement, rsr_movimientos, rsr_next_mov_id]
  · intro h' hmem hid
    simp only [register_movement] at hmem
    rw [List.mem_map] at hmem
    obtain ⟨h1, _, heq⟩ := hmem
    by_cases hc : h1.id = item_id
    · rw [← heq]; simp [hc]
    · exfalso
      rw [← heq] at hid
      simp [hc] at hid

/-- Claim C10: `add_obra` returns `False` and leaves the store unchanged
when a site with the trimmed name already exists; it inserts exactly one
new row when none exists; and any sequence of `add_obra` calls preserves
name uniqueness of the `obras` table. -/
theorem add_obra_no_duplicates (db : DB) (nombre estado : String) :
    ((∃ o ∈ db.obras, o.nombre = strip nombre) → add_obra db nombre estado = (false, db)) ∧
    ((∀ o ∈ db.obras, o.nombre ≠ strip nombre) →
      (add_obra db nombre estado).1 = true ∧
      (add_obra db nombre estado).2.obras =
        db.obras ++ [{ id := db.next_obra_id, nombre := strip nombre, estado := estado }]) ∧
    (∀ calls : List (String × String),
      db.obras.Pairwise (fun a b => a.nombre ≠ b.nombre) →
      (calls.foldl (fun acc p => (add_obra acc p.1 p.2).2) db).obras.Pairwise
        (fun a b => a.nombre ≠ b.nombre)) := by
  refine ⟨?_, ?_, ?_⟩
  · rintro ⟨o, homem, honame⟩
    rw [add_obra]
    cases hfind : db.obras.find? (fun x => x.nombre == strip nombre) with
    | some o' => rfl
    | none =>
        exfalso
        rw [List.find?_eq_none] at hfind
        exact hfind o homem (by simp [honame])
  · intro hnone
    have hfind : db.obras.find? (fun x => x.nombre == strip nombre) = none := by
      rw [List.find?_eq_none]
      intro x hx
      simpa using hnone x hx
    rw [add_obra, hfind]
    exact ⟨rfl, rfl⟩
  · intro calls
    induction calls generalizing db with
    | nil => intro h; exact h
    | cons p t ih =>
        intro h
        exact ih _ (add_obra_preserves_unique db p.1 p.2 h)

/-- Witness for C10 at a concrete store: the fresh-name branch applies and
the insert succeeds. -/
theorem add_obra_no_duplicates_witness :
    (∀ o ∈ dbEj.obras, o.nombre ≠ strip "Obra Nueva") ∧
    (add_obra dbEj "Obra Nueva" "Activa").1 = true :=
  ⟨by decide, ((add_obra_no_duplicates dbEj "Obra Nueva" "Activa").2.1 (by decide)).1⟩
